import Mathlib

set_option maxRecDepth 4000
set_option linter.unusedVariables false

/-!
Shallow embedding of the "Axora Enigma" client-side chat application
(session store, session exporter, context assembler, provider router),
together with theorems checking the natural-language specification
against the embedded code.

Timestamps are modelled as `Int` (milliseconds since epoch).  The
key-value persistence layer (`localStorage` under one key) is modelled
as an explicit `StorageState` value threaded through each operation:
the blob is either missing, present but unparseable, or a parsed list
of sessions.  The JavaScript `Array.prototype.sort` (guaranteed stable
since ES2019) is modelled by `List.insertionSort`, which is stable for
the same comparator-induced preorder; a stable sort of a list with
respect to a total preorder is unique, so this is the same function.
Locale-dependent date formatting is abstracted as function parameters.
The generative-AI SDK is an opaque request/response boundary, modelled
as a function from the request each branch builds to either a response
or a thrown error.
-/

namespace Engm

/-- Role enum from src (types): user, model, system. -/
inductive Role where
  | user
  | model
  | system
deriving DecidableEq, Repr

/-- String value of the Role enum member, as in the TypeScript source. -/
def Role.toStr : Role → String
  | .user => "user"
  | .model => "model"
  | .system => "system"

/-- MessageType enum from src (types): text, image, error. -/
inductive MessageType where
  | text
  | image
  | error
deriving DecidableEq, Repr

/-- Attachment record from src (types). -/
structure Attachment where
  type : String
  data : String
  name : String
deriving DecidableEq, Repr

/-- Web source of a grounding chunk, as consumed by the exporter
(`chunk.web?.uri`). -/
structure WebSource where
  uri : Option String
deriving DecidableEq, Repr

/-- One grounding chunk, as consumed by the exporter. -/
structure GroundingChunk where
  web : Option WebSource
deriving DecidableEq, Repr

/-- Grounding metadata payload; typed `any` in the source, modelled by
the fields the code actually reads (`groundingChunks`). -/
structure GroundingMetadata where
  groundingChunks : Option (List GroundingChunk)
deriving DecidableEq, Repr

/-- Message record from src (types). -/
structure Message where
  id : String
  role : Role
  content : String
  type : MessageType
  timestamp : Int
  attachments : Option (List Attachment)
  groundingMetadata : Option GroundingMetadata
deriving DecidableEq, Repr

/-- ModeType enum from src (types). -/
inductive ModeType where
  | GENERAL
  | LANDING_PAGE
  | EBOOK
  | IMAGE_GEN
  | MARKET_RESEARCH
deriving DecidableEq, Repr

/-- String value of the ModeType enum member. -/
def ModeType.toStr : ModeType → String
  | .GENERAL => "General"
  | .LANDING_PAGE => "Landing Page Creator"
  | .EBOOK => "Ebook Architect"
  | .IMAGE_GEN => "Visual Studio"
  | .MARKET_RESEARCH => "Market Research"

/-- APIProvider enum from src (types). -/
inductive APIProvider where
  | GEMINI
  | DEEPSEEK
  | FAL_AI
  | TAVILY
deriving DecidableEq, Repr

/-- String value of the APIProvider enum member. -/
def APIProvider.toStr : APIProvider → String
  | .GEMINI => "Gemini 2.5"
  | .DEEPSEEK => "Deepseek R1"
  | .FAL_AI => "Fal.ai (Nano Banana)"
  | .TAVILY => "Tavily Search"

/-- ChatSession record from src (types). -/
structure ChatSession where
  id : String
  title : String
  lastModified : Int
  messages : List Message
  modeId : ModeType
  projectId : Option String
deriving DecidableEq, Repr

/-- RETENTION_MS constant from the history service: 10 days in
milliseconds. -/
def RETENTION_MS : Int := 10 * 24 * 60 * 60 * 1000

/-- State of the persisted blob under the single storage key: missing,
present but not valid JSON, or a parsed array of sessions. -/
inductive StorageState where
  | absent
  | corrupt
  | stored (sessions : List ChatSession)
deriving DecidableEq, Repr

/-- Sessions recoverable from the persisted blob (empty when the blob
is missing or unparseable). -/
def storedSessions : StorageState → List ChatSession
  | .stored sessions => sessions
  | _ => []

/-- Comparator `(a, b) => b.lastModified - a.lastModified` from
`loadSessions`, read as the induced "a may stay before b" preorder:
the comparator is nonpositive exactly when `b.lastModified ≤
a.lastModified`. -/
def sessionBefore (a b : ChatSession) : Prop :=
  b.lastModified ≤ a.lastModified

instance : DecidableRel sessionBefore :=
  fun a b => inferInstanceAs (Decidable (b.lastModified ≤ a.lastModified))

instance : IsTotal ChatSession sessionBefore :=
  ⟨fun a b => le_total b.lastModified a.lastModified⟩

instance : IsTrans ChatSession sessionBefore :=
  ⟨fun _ _ _ h1 h2 => le_trans h2 h1⟩

/-- loadSessions from the history service.  Reads the blob (missing
blob and parse failure both yield the empty list and leave storage
unchanged, mirroring the early return and the catch branch), filters
out sessions with `now - lastModified ≥ RETENTION_MS`, writes the
filtered set back iff anything was dropped (the write happens before
the in-place sort, so the persisted order is the pre-sort order), and
returns the survivors sorted by `lastModified` descending (stable). -/
def loadSessions (store : StorageState) (now : Int) :
    List ChatSession × StorageState :=
  match store with
  | .absent => ([], store)
  | .corrupt => ([], store)
  | .stored sessions =>
    let validSessions := sessions.filter
      (fun s => decide (now - s.lastModified < RETENTION_MS))
    let written :=
      if validSessions.length ≠ sessions.length
        then StorageState.stored validSessions
        else store
    (validSessions.insertionSort sessionBefore, written)

/-- saveSession from the history service: load (filter plus sort),
stamp `lastModified := now` on the incoming session, replace the first
entry with the same id in place, or insert at the front when absent,
then persist the resulting list and return it. -/
def saveSession (store : StorageState) (session : ChatSession) (now : Int) :
    List ChatSession × StorageState :=
  let sessions := (loadSessions store now).1
  let updatedSession := { session with lastModified := now }
  let newList :=
    match sessions.findIdx? (fun s => s.id == session.id) with
    | some index => sessions.set index updatedSession
    | none => updatedSession :: sessions
  (newList, StorageState.stored newList)

/-- deleteSession from the history service: load, drop every entry with
the given id, persist, return the remainder. -/
def deleteSession (store : StorageState) (id : String) (now : Int) :
    List ChatSession × StorageState :=
  let sessions := (loadSessions store now).1
  let filtered := sessions.filter (fun s => s.id != id)
  (filtered, StorageState.stored filtered)

/-- JavaScript `x || dflt` on an optional string: the default is used
when the value is undefined (or null) or empty (falsy). -/
def jsOr (o : Option String) (dflt : String) : String :=
  match o with
  | some s => if s = "" then dflt else s
  | none => dflt

/-- Session created by handleSendMessage on the first message of a
conversation (src App component): id is the epoch-millisecond clock
value as a string, the title is the text truncated to 30 characters
with an ellipsis appended when longer, messages start empty. -/
def mkNewSession (text : String) (now : Int) (modeId : ModeType)
    (projectId : Option String) : ChatSession :=
  { id := toString now,
    title := if text.length > 30 then (text.take 30) ++ "..." else text,
    lastModified := now,
    messages := [],
    modeId := modeId,
    projectId := projectId }

/-- Occurrence of `pat` as a contiguous segment of the character list
`l`. -/
def SegIn (pat l : List Char) : Prop :=
  ∃ a b : List Char, a ++ pat ++ b = l

/-- Occurrence of `pat` as a contiguous substring of `s`. -/
def ContainsSeg (pat s : String) : Prop :=
  SegIn pat.data s.data

/-- Boolean scan deciding segment occurrence. -/
def subSegB [BEq α] (pat : List α) : List α → Bool
  | [] => pat.isEmpty
  | x :: t => pat.isPrefixOf (x :: t) || subSegB pat t

instance (pat s : String) : Decidable (ContainsSeg pat s) :=
  decidable_of_iff (subSegB pat.data s.data = true) (by
    show _ ↔ SegIn pat.data s.data
    rw [SegIn]
    generalize s.data = l
    induction l with
    | nil =>
      simp only [subSegB, List.isEmpty_iff]
      constructor
      · intro hemp
        rw [hemp]
        exact ⟨[], [], rfl⟩
      · rintro ⟨a, b, h⟩
        rcases List.append_eq_nil.mp h with ⟨h1, h2⟩
        exact (List.append_eq_nil.mp h1).2
    | cons x t ih =>
      simp only [subSegB, Bool.or_eq_true, List.isPrefixOf_iff_prefix, ih]
      constructor
      · rintro (hpre | ⟨a, b, rfl⟩)
        · rcases hpre with ⟨c, hc⟩
          exact ⟨[], c, by simpa using hc⟩
        · exact ⟨x :: a, b, rfl⟩
      · rintro ⟨a, b, hab⟩
        cases a with
        | nil =>
          left
          exact ⟨b, by simpa using hab⟩
        | cons y u =>
          right
          rcases List.cons_eq_cons.mp (by simpa using hab) with ⟨rfl, h2⟩
          exact ⟨u, b, by rw [← List.append_assoc] at h2; exact h2⟩)

/-- JavaScript `String.prototype.toUpperCase`, modelled as the
character-wise upper-case map (all strings it is applied to are
ASCII role names). -/
def strUpper (s : String) : String := String.mk (s.data.map Char.toUpper)

/-- Lines of the "Sources Used" block (downloadSessionAsTxt): one line
per grounding chunk carrying a (truthy) web uri, numbered by the 1-based
position of the chunk among all chunks; `i` is the position of the
first chunk of the argument within the full chunk list. -/
def sourcesLines (i : Nat) : List GroundingChunk → String
  | [] => ""
  | c :: rest =>
    (match c.web with
     | some w =>
       match w.uri with
       | some u => if u = "" then "" else
           "   " ++ toString (i + 1) ++ ". " ++ u ++ "\n"
       | none => ""
     | none => "") ++ sourcesLines (i + 1) rest

/-- Attachment-count note of one message (downloadSessionAsTxt). -/
def attachNote (msg : Message) : String :=
  match msg.attachments with
  | some atts =>
    if atts.length > 0 then
      "[Attached " ++ toString atts.length ++ " file(s)]\n"
    else ""
  | none => ""

/-- Sources block of one message (downloadSessionAsTxt): the header is
emitted whenever `groundingMetadata?.groundingChunks` is defined. -/
def sourcesBlock (msg : Message) : String :=
  match msg.groundingMetadata with
  | some gm =>
    match gm.groundingChunks with
    | some chunks => "\n[Sources Used]:\n" ++ sourcesLines 0 chunks
    | none => ""
  | none => ""

/-- Per-message section of the exported transcript
(downloadSessionAsTxt): `[time] ROLE:` line with the role upper-cased,
the raw content, the attachment note, the sources block, and the
separator. -/
def msgBlock (fmtTime : Int → String) (msg : Message) : String :=
  "[" ++ fmtTime msg.timestamp ++ "] " ++ strUpper (Role.toStr msg.role) ++ ":\n"
    ++ msg.content ++ "\n"
    ++ attachNote msg
    ++ sourcesBlock msg
    ++ "\n----------------------------------------\n\n"

/-- Concatenation of a list of strings (the forEach accumulation in
downloadSessionAsTxt). -/
def strJoin : List String → String
  | [] => ""
  | s :: rest => s ++ strJoin rest

/-- Header block of the exported transcript (downloadSessionAsTxt);
`session.projectId || 'None'` is modelled by `jsOr`. -/
def transcriptHeader (fmtDate : Int → String) (session : ChatSession) :
    String :=
  "========================================\n"
    ++ "AXORA ENIGMA SYSTEM - SESSION LOG\n"
    ++ "========================================\n"
    ++ "SESSION ID: " ++ session.id ++ "\n"
    ++ "TITLE:      " ++ session.title ++ "\n"
    ++ "DATE:       " ++ fmtDate session.lastModified ++ "\n"
    ++ "MODE:       " ++ ModeType.toStr session.modeId ++ "\n"
    ++ "PROJECT:    " ++ jsOr session.projectId "None" ++ "\n"
    ++ "========================================\n\n"

/-- Transcript text assembled by downloadSessionAsTxt before it is
wrapped in a blob and downloaded (the DOM mechanics are out of scope):
the header followed by one block per message, in message order.
`fmtDate` and `fmtTime` abstract the locale-dependent
`toLocaleString` and `toLocaleTimeString`. -/
def sessionTranscript (fmtDate fmtTime : Int → String)
    (session : ChatSession) : String :=
  transcriptHeader fmtDate session
    ++ strJoin (session.messages.map (msgBlock fmtTime))

/-- Shared project context from src (types). -/
structure SharedContext where
  summary : String
  keyFacts : List (String × String)

/-- Mode-private memory entry from src (types).  The `data` field is
typed `any` in the source and only ever serialized; it is modelled by
its JSON serialization. -/
structure ModeContextEntry where
  lastState : Option String
  specificInstructions : Option String
  data : Option String

/-- ProjectMemory from src (types); the partial record over mode ids
is modelled as a function into `Option`. -/
structure ProjectMemory where
  sharedContext : SharedContext
  modeContext : ModeType → Option ModeContextEntry

/-- Project record from src (types). -/
structure Project where
  id : String
  name : String
  description : String
  memory : ProjectMemory

/-- Mode capability from src (types). -/
inductive Capability where
  | text
  | image
  | search
deriving DecidableEq, Repr

/-- Mode record from src (types). -/
structure Mode where
  id : ModeType
  name : String
  description : String
  systemPrompt : String
  provider : APIProvider
  capabilities : List Capability

/-- JSON.stringify of a string-to-string record with indent 2, as
applied to `keyFacts` (escaping of special characters inside keys and
values is elided; the brace characters are written with escapes). -/
def jsonStringifyRecord (kvs : List (String × String)) : String :=
  match kvs with
  | [] => "\x7b\x7d"
  | _ =>
    "\x7b\n"
      ++ String.intercalate ",\n"
        (kvs.map (fun kv => "  \"" ++ kv.1 ++ "\": \"" ++ kv.2 ++ "\""))
      ++ "\n\x7d"

/-- Mode-specific part of the assembled system instruction
(constructContextualSystemPrompt): emitted from the project memory
entry keyed by the mode's id when one exists (each field only when
truthy), otherwise the explicit "no memory" marker. -/
def modeMemoryBlock (mode : Mode) (project : Project) : String :=
  match project.memory.modeContext mode.id with
  | some privateMem =>
    "\n--- 🔒 MODE MEMORY (Visible only to " ++ mode.name ++ ") ---\n"
      ++ (match privateMem.specificInstructions with
          | some s => if s = "" then "" else
              "Specific Instructions: " ++ s ++ "\n"
          | none => "")
      ++ (match privateMem.data with
          | some d => "Structured Data: " ++ d ++ "\n"
          | none => "")
      ++ (match privateMem.lastState with
          | some s => if s = "" then "" else "Last Known State: " ++ s ++ "\n"
          | none => "")
  | none => "\n(No specific memory exists for this mode yet)\n"

/-- constructContextualSystemPrompt from the routing service: mode
persona, then (when a project is attached) the project header, the
shared-memory block, the mode-memory block and a closing sentence. -/
def constructContextualSystemPrompt (mode : Mode) (project : Option Project) :
    String :=
  "You are running in mode: " ++ mode.name ++ " ("
    ++ APIProvider.toStr mode.provider ++ ").\n" ++ mode.systemPrompt
    ++ (match project with
        | none => ""
        | some project =>
          "\n\n=== 🗂️ ACTIVE PROJECT: " ++ project.name ++ " ===\n"
            ++ "Description: " ++ project.description ++ "\n"
            ++ "\n--- 🌐 SHARED MEMORY (Visible to all modes) ---\n"
            ++ "Summary: " ++ project.memory.sharedContext.summary ++ "\n"
            ++ "Key Facts: "
            ++ jsonStringifyRecord project.memory.sharedContext.keyFacts ++ "\n"
            ++ modeMemoryBlock mode project
            ++ "\nUse this structured context to inform your response. Do not hallucinate details not in memory.")

/-- Error thrown by the SDK (or by the JavaScript runtime inside the
try block); only its message is consumed. -/
structure GenError where
  message : String
deriving DecidableEq, Repr

/-- One entry of the role-mapped history replayed into a chat session. -/
structure HistoryEntry where
  role : String
  text : String
deriving DecidableEq, Repr

/-- One part of a multi-part request (attachments first, text last). -/
inductive ReqPart where
  | inlineData (mimeType : String) (data : String)
  | text (t : String)
deriving DecidableEq, Repr

/-- The four outbound call shapes sendMessageToGemini can issue:
single-shot image generation, search-grounded generation, a chat-send
with replayed history (with or without a thinking budget), and a
one-shot multi-part call carrying attachments. -/
inductive BackendReq where
  | generateImage (model : String) (text : String) (aspectRatio : String)
  | generateSearch (model : String) (contents : String)
      (systemInstruction : String)
  | chatSendMessage (model : String) (history : List HistoryEntry)
      (systemInstruction : String) (thinkingBudget : Option Int)
      (message : String)
  | generateMultipart (model : String) (parts : List ReqPart)
      (systemInstruction : String)
deriving DecidableEq, Repr

/-- Inline binary payload of a response part (only its data is read). -/
structure InlineDataOut where
  data : String
deriving DecidableEq, Repr

/-- One content part of a response candidate. -/
structure GenPartOut where
  inlineData : Option InlineDataOut
  text : Option String
deriving DecidableEq, Repr

/-- Content of a response candidate; `parts` may be undefined. -/
structure ContentOut where
  parts : Option (List GenPartOut)
deriving DecidableEq, Repr

/-- One response candidate; `content` may be undefined. -/
structure CandidateOut where
  content : Option ContentOut
  groundingMetadata : Option GroundingMetadata
deriving DecidableEq, Repr

/-- SDK response, as consumed by the router. -/
structure BackendResp where
  candidates : Option (List CandidateOut)
  text : Option String
deriving DecidableEq, Repr

/-- ImageSettings from src (types). -/
structure ImageSettings where
  aspectRatio : String
  format : String
deriving DecidableEq, Repr

/-- Attachment as passed to sendMessageToGemini. -/
structure AttachmentIn where
  type : String
  data : String
deriving DecidableEq, Repr

/-- Normalized result of sendMessageToGemini. -/
structure RouteResult where
  text : String
  images : Option (List String)
  groundingMetadata : Option GroundingMetadata
deriving DecidableEq, Repr

/-- Result returned when the API key is missing (or empty, which is
falsy in `!process.env.API_KEY`). -/
def noApiKeyResult : RouteResult :=
  { text := "Error: No API Key found. Please set REACT_APP_API_KEY or process.env.API_KEY.",
    images := none, groundingMetadata := none }

/-- sendMessageToGemini from the routing service.  `backend` is the
opaque SDK boundary: it maps the request each branch builds to either
a response or a thrown error; everything inside the source's try block
runs in `Except GenError`, and the catch branch converts an error into
a normal result whose text embeds the provider name and the error
message.  The unguarded `response.candidates[0].content.parts` access
of the image branch throws a TypeError (modelled with the runtime's
message) when candidates is a truthy empty array or content is
undefined. -/
def sendMessageToGemini (apiKey : Option String)
    (backend : BackendReq → Except GenError BackendResp)
    (history : List Message) (mode : Mode) (project : Option Project)
    (newMessage : String) (attachments : List AttachmentIn)
    (imageSettings : Option ImageSettings) : RouteResult :=
  match apiKey with
  | none => noApiKeyResult
  | some key =>
    if key = "" then noApiKeyResult
    else
      let systemInstruction := constructContextualSystemPrompt mode project
      let attempt : Except GenError RouteResult :=
        match mode.provider with
        | .FAL_AI =>
          let aspectRatio := jsOr (imageSettings.map (fun s => s.aspectRatio)) "1:1"
          match backend (.generateImage "gemini-2.5-flash-image" newMessage
              aspectRatio) with
          | .error e => .error e
          | .ok response =>
            let textDefault :=
              "Generated with Fal.ai (Nano Banana Pro emulation) in "
                ++ aspectRatio ++ " ratio:"
            match response.candidates with
            | none =>
              .ok { text := textDefault, images := some [],
                    groundingMetadata := none }
            | some [] =>
              .error { message :=
                "Cannot read properties of undefined (reading 'content')" }
            | some (c :: _) =>
              match c.content with
              | none =>
                .error { message :=
                  "Cannot read properties of undefined (reading 'parts')" }
              | some content =>
                match content.parts with
                | none =>
                  .ok { text := textDefault, images := some [],
                        groundingMetadata := none }
                | some parts =>
                  let res := parts.foldl
                    (fun (acc : List String × String) part =>
                      match part.inlineData with
                      | some inl =>
                        (acc.1 ++ ["data:"
                          ++ jsOr (imageSettings.map (fun s => s.format))
                              "image/png"
                          ++ ";base64," ++ inl.data], acc.2)
                      | none =>
                        match part.text with
                        | some t => if t = "" then acc else (acc.1, t)
                        | none => acc)
                    ([], textDefault)
                  .ok { text := res.2, images := some res.1,
                        groundingMetadata := none }
        | .TAVILY =>
          match backend (.generateSearch "gemini-2.5-flash" newMessage
              systemInstruction) with
          | .error e => .error e
          | .ok response =>
            .ok { text := jsOr response.text "No results found via Research API.",
                  images := none,
                  groundingMetadata :=
                    match response.candidates with
                    | some (c :: _) => c.groundingMetadata
                    | _ => none }
        | .DEEPSEEK =>
          let chatHistory := history.map (fun msg =>
            { role := if msg.role = Role.user then "user" else "model",
              text := msg.content })
          match backend (.chatSendMessage "gemini-3-pro-preview" chatHistory
              systemInstruction (some 1024) newMessage) with
          | .error e => .error e
          | .ok result =>
            .ok { text := jsOr result.text "", images := none,
                  groundingMetadata := none }
        | .GEMINI =>
          let chatHistory := history.map (fun msg =>
            { role := if msg.role = Role.user then "user" else "model",
              text := msg.content })
          if attachments.length > 0 then
            let parts :=
              (attachments.map (fun att => ReqPart.inlineData att.type att.data))
                ++ [ReqPart.text newMessage]
            match backend (.generateMultipart "gemini-2.5-flash" parts
                systemInstruction) with
            | .error e => .error e
            | .ok response =>
              .ok { text := jsOr response.text "", images := none,
                    groundingMetadata := none }
          else
            match backend (.chatSendMessage "gemini-2.5-flash" chatHistory
                systemInstruction none newMessage) with
            | .error e => .error e
            | .ok result =>
              .ok { text := jsOr result.text "", images := none,
                    groundingMetadata := none }
      match attempt with
      | .ok r => r
      | .error e =>
        { text := "System Error (" ++ APIProvider.toStr mode.provider ++ "): "
            ++ e.message,
          images := none, groundingMetadata := none }

/-! Concrete fixtures used by witnesses and counterexamples. -/

/-- Fixture: a session last modified at epoch 0. -/
def expiredSession : ChatSession :=
  { id := "c", title := "old", lastModified := 0, messages := [],
    modeId := ModeType.GENERAL, projectId := none }

/-- Fixture: a live session. -/
def sessA : ChatSession :=
  { id := "a", title := "Hi", lastModified := 100, messages := [],
    modeId := ModeType.GENERAL, projectId := none }

/-- Fixture: a constant time formatter. -/
def cFmt : Int → String := fun _ => "12:00:00"

/-- Fixture: a user message. -/
def msgU : Message :=
  { id := "m1", role := Role.user, content := "hello", type := MessageType.text,
    timestamp := 1, attachments := none, groundingMetadata := none }

/-- Fixture: a grounding chunk with a web uri. -/
def chunkX : GroundingChunk := { web := some { uri := some "http://x.com" } }

/-- Fixture: a model message with one grounding chunk carrying a web
uri. -/
def msgM : Message :=
  { id := "m2", role := Role.model, content := "answer",
    type := MessageType.text, timestamp := 2, attachments := none,
    groundingMetadata := some { groundingChunks := some [chunkX] } }

/-- Fixture: the two-message session of the export scenario. -/
def sessX : ChatSession :=
  { id := "s", title := "T", lastModified := 3, messages := [msgU, msgM],
    modeId := ModeType.GENERAL, projectId := none }

/-- Fixture: a grounding chunk with no web source. -/
def chunkNone : GroundingChunk := { web := none }

/-- Fixture: a grounding chunk with the web uri of the counterexample. -/
def chunkY : GroundingChunk := { web := some { uri := some "http://y.com" } }

/-- Fixture: a model message whose first grounding chunk has no web
uri and whose second one has one. -/
def msgY : Message :=
  { id := "m", role := Role.model, content := "", type := MessageType.text,
    timestamp := 0, attachments := none,
    groundingMetadata := some { groundingChunks := some [chunkNone, chunkY] } }

/-- Fixture: a session holding only `msgY`. -/
def sessY : ChatSession :=
  { id := "s", title := "", lastModified := 0, messages := [msgY],
    modeId := ModeType.GENERAL, projectId := none }

/-- Fixture: a mode running on the default provider. -/
def modeG : Mode :=
  { id := ModeType.GENERAL, name := "AI Assistant",
    description := "General purpose assistant.",
    systemPrompt := "You are Axora.", provider := APIProvider.GEMINI,
    capabilities := [Capability.text] }

/-- Fixture: a mode-private memory entry. -/
def memEntryEbook : ModeContextEntry :=
  { lastState := none, specificInstructions := some "Tone contrarian.",
    data := none }

/-- Fixture: a project with a private memory entry for the Ebook mode
only. -/
def projP1 : Project :=
  { id := "p1", name := "Personal Brand", description := "Brand project.",
    memory :=
      { sharedContext := { summary := "S.", keyFacts := [("Audience", "CTOs")] },
        modeContext := fun m =>
          if m = ModeType.EBOOK then some memEntryEbook else none } }

/-- Fixture: the same project with no private memory entries at all. -/
def projP2 : Project :=
  { id := "p1", name := "Personal Brand", description := "Brand project.",
    memory :=
      { sharedContext := { summary := "S.", keyFacts := [("Audience", "CTOs")] },
        modeContext := fun _ => none } }

/-- Fixture: a backend that always throws. -/
def backendBoom : BackendReq → Except GenError BackendResp :=
  fun _ => Except.error { message := "boom" }

/-! Theorems. -/

theorem segIn_append_left {pat l : List Char} (t : List Char) (h : SegIn pat l) :
    SegIn pat (t ++ l) := by
  rcases h with ⟨a, b, rfl⟩
  exact ⟨t ++ a, b, by simp [List.append_assoc]⟩

theorem segIn_append_right {pat l : List Char} (t : List Char) (h : SegIn pat l) :
    SegIn pat (l ++ t) := by
  rcases h with ⟨a, b, rfl⟩
  exact ⟨a, b ++ t, by simp [List.append_assoc]⟩

theorem ContainsSeg.append_left {pat s : String} (t : String)
    (h : ContainsSeg pat s) : ContainsSeg pat (t ++ s) := by
  rw [ContainsSeg, String.data_append]
  exact segIn_append_left t.data h

theorem ContainsSeg.append_right {pat s : String} (t : String)
    (h : ContainsSeg pat s) : ContainsSeg pat (s ++ t) := by
  rw [ContainsSeg, String.data_append]
  exact segIn_append_right t.data h

theorem ContainsSeg.self (pat : String) : ContainsSeg pat pat :=
  ⟨[], [], by simp⟩

/-- Helper: `List.set` at an index with the element already there is
the identity. -/
theorem set_getElem_eq_self (l : List α) (i : Nat) (h : i < l.length) :
    l.set i l[i] = l := by
  apply List.ext_getElem
  · simp
  · intro j h1 h2
    rw [List.getElem_set]
    split
    · next heq => subst heq; rfl
    · rfl

/-- Helper: unfolding equation for `saveSession` when an entry with
the incoming id exists. -/
theorem saveSession_fst_some (store : StorageState) (session : ChatSession)
    (now : Int) (i : Nat)
    (hfind : ((loadSessions store now).1).findIdx?
      (fun s => s.id == session.id) = some i) :
    (saveSession store session now).1 =
      ((loadSessions store now).1).set i { session with lastModified := now } := by
  unfold saveSession
  simp only [hfind]

/-- Helper: unfolding equation for `saveSession` when no entry with
the incoming id exists. -/
theorem saveSession_fst_none (store : StorageState) (session : ChatSession)
    (now : Int)
    (hfind : ((loadSessions store now).1).findIdx?
      (fun s => s.id == session.id) = none) :
    (saveSession store session now).1 =
      { session with lastModified := now } :: (loadSessions store now).1 := by
  unfold saveSession
  simp only [hfind]

/-- Helper: loading preserves distinctness of session ids. -/
theorem load_nodup (store : StorageState) (now : Int)
    (h : ((storedSessions store).map ChatSession.id).Nodup) :
    (((loadSessions store now).1).map ChatSession.id).Nodup := by
  cases store with
  | absent => exact List.nodup_nil
  | corrupt => exact List.nodup_nil
  | stored sessions =>
    have hvalid : (((sessions.filter
        (fun s => decide (now - s.lastModified < RETENTION_MS))).map
          ChatSession.id).Nodup) :=
      ((List.filter_sublist sessions).map ChatSession.id).nodup h
    have hperm := (List.perm_insertionSort sessionBefore
      (sessions.filter (fun s => decide (now - s.lastModified < RETENTION_MS)))).map
        ChatSession.id
    exact hperm.nodup_iff.mpr hvalid

/-- Helper: the updated session (with `lastModified` stamped to `now`)
is a member of the list returned and persisted by `saveSession`. -/
theorem save_mem_updated (store : StorageState) (session : ChatSession)
    (now : Int) :
    { session with lastModified := now } ∈ (saveSession store session now).1 := by
  cases hfind : ((loadSessions store now).1).findIdx?
      (fun s => s.id == session.id) with
  | none =>
    rw [saveSession_fst_none store session now hfind]
    exact List.mem_cons_self _ _
  | some i =>
    rw [saveSession_fst_some store session now i hfind]
    rcases List.findIdx?_eq_some_iff_getElem.mp hfind with ⟨hlt, _, _⟩
    have hlt2 : i < (((loadSessions store now).1).set i
        { session with lastModified := now }).length := by
      simpa using hlt
    have hgs := List.getElem_set_self (l := (loadSessions store now).1)
      (i := i) (a := { session with lastModified := now }) hlt2
    have hmem := List.getElem_mem hlt2
    rw [hgs] at hmem
    exact hmem

/-- Helper: saving preserves distinctness of session ids. -/
theorem save_nodup (store : StorageState) (session : ChatSession) (now : Int)
    (h : ((storedSessions store).map ChatSession.id).Nodup) :
    (((saveSession store session now).1).map ChatSession.id).Nodup := by
  have hload := load_nodup store now h
  cases hfind : ((loadSessions store now).1).findIdx?
      (fun s => s.id == session.id) with
  | none =>
    rw [saveSession_fst_none store session now hfind]
    have hnone := List.findIdx?_eq_none_iff.mp hfind
    rw [List.map_cons, List.nodup_cons]
    refine ⟨?_, hload⟩
    intro hmem
    rcases List.mem_map.mp hmem with ⟨x, hx, hxid⟩
    have := hnone x hx
    simp only [beq_eq_false_iff_ne, ne_eq] at this
    exact this hxid
  | some i =>
    rw [saveSession_fst_some store session now i hfind]
    rcases List.findIdx?_eq_some_iff_getElem.mp hfind with ⟨hlt, hbeq, _⟩
    have hid : ((loadSessions store now).1)[i].id = session.id := by
      simpa using hbeq
    rw [List.map_set]
    have hlt3 : i < (((loadSessions store now).1).map ChatSession.id).length := by
      simpa using hlt
    have hgm : (((loadSessions store now).1).map ChatSession.id)[i] =
        session.id := by
      rw [List.getElem_map]
      exact hid
    have hproj : ChatSession.id { session with lastModified := now } =
        session.id := rfl
    rw [hproj, ← hgm, set_getElem_eq_self _ i hlt3]
    exact hload

/-- Helper: in a list whose ids are distinct, a member with id `v`
makes the count of sessions with id `v` exactly one. -/
theorem countP_id_eq_one (v : String) :
    ∀ l : List ChatSession, ((l.map ChatSession.id).Nodup) →
      ∀ x ∈ l, x.id = v → l.countP (fun s => s.id == v) = 1 := by
  intro l
  induction l with
  | nil => intro _ x hx; cases hx
  | cons y t ih =>
    intro hn x hx hid
    simp only [List.map_cons, List.nodup_cons] at hn
    rcases List.mem_cons.mp hx with heq | hxt
    · subst heq
      rw [List.countP_cons_of_pos _ _ (by simpa using hid)]
      have hzero : t.countP (fun s => s.id == v) = 0 := by
        rw [List.countP_eq_zero]
        intro a ha
        simp only [beq_iff_eq]
        intro hav
        exact hn.1 (hid ▸ hav ▸ List.mem_map_of_mem ChatSession.id ha)
      omega
    · by_cases hy : y.id = v
      · exfalso
        apply hn.1
        rw [hy, ← hid]
        exact List.mem_map_of_mem ChatSession.id hxt
      · rw [List.countP_cons_of_neg _ _ (by simpa using hy)]
        exact ih hn.2 x hxt hid

/-- C1: every stored session S with `now - S.lastModified ≥
RETENTION_MS` is absent from the list returned by `loadSessions`, and
absent from the blob persisted by that call, for every store state and
current time. -/
theorem retention_invariant (store : StorageState) (now : Int)
    (S : ChatSession) (h : now - S.lastModified ≥ RETENTION_MS) :
    S ∉ (loadSessions store now).1 ∧
    S ∉ storedSessions (loadSessions store now).2 := by
  cases store with
  | absent => exact ⟨List.not_mem_nil S, List.not_mem_nil S⟩
  | corrupt => exact ⟨List.not_mem_nil S, List.not_mem_nil S⟩
  | stored sessions =>
    have hpred : ∀ s : ChatSession,
        s ∈ sessions.filter (fun s => decide (now - s.lastModified < RETENTION_MS)) →
        now - s.lastModified < RETENTION_MS := by
      intro s hs
      have := List.of_mem_filter hs
      simpa using this
    constructor
    · intro hmem
      simp only [loadSessions, List.mem_insertionSort] at hmem
      exact absurd (hpred S hmem) (by omega)
    · intro hmem
      simp only [loadSessions] at hmem
      by_cases hlen :
          (sessions.filter (fun s => decide (now - s.lastModified < RETENTION_MS))).length
            ≠ sessions.length
      · rw [if_pos hlen] at hmem
        simp only [storedSessions] at hmem
        exact absurd (hpred S hmem) (by omega)
      · rw [if_neg hlen] at hmem
        simp only [storedSessions] at hmem
        push_neg at hlen
        have hall := List.filter_length_eq_length.mp hlen
        have := hall S hmem
        simp only [decide_eq_true_eq] at this
        omega

theorem retention_invariant_witness :
    expiredSession ∉
      (loadSessions (StorageState.stored [expiredSession]) RETENTION_MS).1 ∧
    expiredSession ∉
      storedSessions
        (loadSessions (StorageState.stored [expiredSession]) RETENTION_MS).2 :=
  retention_invariant (StorageState.stored [expiredSession]) RETENTION_MS
    expiredSession (by decide)

/-- C2: the list returned by `loadSessions` is sorted by
`lastModified` descending, and for every timestamp value `k` the
subsequence of returned sessions with `lastModified = k` equals the
subsequence, in persisted-blob order, of unexpired stored sessions
with `lastModified = k` (stability of the sort). -/
theorem list_sorted_stable (store : StorageState) (now : Int) :
    ((loadSessions store now).1).Pairwise
      (fun a b => b.lastModified ≤ a.lastModified) ∧
    ∀ k : Int,
      ((loadSessions store now).1).filter (fun s => s.lastModified == k) =
        (((storedSessions store).filter
            (fun s => decide (now - s.lastModified < RETENTION_MS))).filter
          (fun s => s.lastModified == k)) := by
  cases store with
  | absent => exact ⟨List.Pairwise.nil, fun k => rfl⟩
  | corrupt => exact ⟨List.Pairwise.nil, fun k => rfl⟩
  | stored sessions =>
    have hout : (loadSessions (StorageState.stored sessions) now).1 =
        (sessions.filter
          (fun s => decide (now - s.lastModified < RETENTION_MS))).insertionSort
          sessionBefore := rfl
    set valid := sessions.filter
      (fun s => decide (now - s.lastModified < RETENTION_MS)) with hvalid
    constructor
    · rw [hout]
      exact List.sorted_insertionSort sessionBefore valid
    · intro k
      rw [hout]
      have hstored : storedSessions (StorageState.stored sessions) = sessions := rfl
      rw [hstored, ← hvalid]
      set p : ChatSession → Bool := fun s => s.lastModified == k with hp
      have hBmem : ∀ x ∈ valid.filter p, x.lastModified = k := by
        intro x hx
        have := List.of_mem_filter hx
        simpa [hp] using this
      have hBpair : (valid.filter p).Pairwise sessionBefore := by
        apply List.pairwise_of_forall_mem_list
        intro a ha b hb
        simp only [sessionBefore, hBmem a ha, hBmem b hb, le_refl]
      have hsub : List.Sublist (valid.filter p)
          (valid.insertionSort sessionBefore) :=
        List.sublist_insertionSort hBpair (List.filter_sublist valid)
      have hsub2 : List.Sublist (valid.filter p)
          ((valid.insertionSort sessionBefore).filter p) := by
        have := hsub.filter p
        rwa [List.filter_filter, show ((fun s => p s && p s) : ChatSession → Bool)
            = p from funext (fun s => Bool.and_self (p s))] at this
      have hlen : ((valid.insertionSort sessionBefore).filter p).length =
          (valid.filter p).length :=
        ((valid.perm_insertionSort sessionBefore).filter p).length_eq
      exact (hsub2.eq_of_length hlen.symm).symm

/-- C3: starting from a store whose sessions have pairwise-distinct
ids, the persisted state after `saveSession` and after `deleteSession`
again has pairwise-distinct ids, and saving the same session twice
leaves exactly one persisted entry carrying its id. -/
theorem at_most_one_per_id (store : StorageState) (session : ChatSession)
    (id : String) (now now2 : Int)
    (h : ((storedSessions store).map ChatSession.id).Nodup) :
    ((storedSessions (saveSession store session now).2).map
      ChatSession.id).Nodup ∧
    ((storedSessions (deleteSession store id now).2).map
      ChatSession.id).Nodup ∧
    (storedSessions
        (saveSession (saveSession store session now).2 session now2).2).countP
      (fun s => s.id == session.id) = 1 := by
  have hsave1 : storedSessions (saveSession store session now).2 =
      (saveSession store session now).1 := rfl
  have hnd1 : (((saveSession store session now).1).map ChatSession.id).Nodup :=
    save_nodup store session now h
  refine ⟨hsave1 ▸ hnd1, ?_, ?_⟩
  · have : storedSessions (deleteSession store id now).2 =
        (deleteSession store id now).1 := rfl
    rw [this]
    have hload := load_nodup store now h
    exact ((List.filter_sublist _).map ChatSession.id).nodup hload
  · have hsave2 : storedSessions
        (saveSession (saveSession store session now).2 session now2).2 =
        (saveSession (saveSession store session now).2 session now2).1 := rfl
    rw [hsave2]
    have hnd2 : (((saveSession (saveSession store session now).2 session
        now2).1).map ChatSession.id).Nodup :=
      save_nodup _ session now2 (hsave1 ▸ hnd1)
    exact countP_id_eq_one session.id _ hnd2 _
      (save_mem_updated (saveSession store session now).2 session now2) rfl

theorem at_most_one_per_id_witness :
    (storedSessions
        (saveSession (saveSession (StorageState.stored [sessA]) sessA 200).2
          sessA 300).2).countP
      (fun s => s.id == sessA.id) = 1 :=
  (at_most_one_per_id (StorageState.stored [sessA]) sessA "b" 200 300
    (by decide)).2.2

/-- C4: `saveSession` stamps `lastModified := now` on the incoming
session (whatever value the caller supplied), replaces the first entry
with the same id in place when one exists and otherwise inserts at the
front, and a later `loadSessions` (within the retention window) yields
an entry agreeing with the saved session on every field except
`lastModified`, which equals the save time and is at least any
pre-save timestamp. -/
theorem save_round_trip (store : StorageState) (session : ChatSession)
    (now tPre t2 : Int) (h1 : tPre ≤ now) (h2 : now ≤ t2)
    (h3 : t2 - now < RETENTION_MS) :
    ((∃ i : Fin ((loadSessions store now).1.length),
        (((loadSessions store now).1).get i).id = session.id ∧
        (saveSession store session now).1 =
          ((loadSessions store now).1).set i
            { session with lastModified := now }) ∨
      ((∀ s ∈ (loadSessions store now).1, s.id ≠ session.id) ∧
        (saveSession store session now).1 =
          { session with lastModified := now } :: (loadSessions store now).1)) ∧
    (∃ s ∈ (loadSessions (saveSession store session now).2 t2).1,
      s.id = session.id ∧ s.title = session.title ∧
      s.messages = session.messages ∧ s.modeId = session.modeId ∧
      s.projectId = session.projectId ∧ s.lastModified = now ∧
      tPre ≤ s.lastModified) := by
  constructor
  · cases hfind : ((loadSessions store now).1).findIdx?
        (fun s => s.id == session.id) with
    | some i =>
      rcases List.findIdx?_eq_some_iff_getElem.mp hfind with ⟨hlt, hbeq, _⟩
      left
      refine ⟨⟨i, hlt⟩, by simpa using hbeq, ?_⟩
      exact saveSession_fst_some store session now i hfind
    | none =>
      right
      have hnone := List.findIdx?_eq_none_iff.mp hfind
      refine ⟨?_, ?_⟩
      · intro s hs
        have := hnone s hs
        simpa using this
      · exact saveSession_fst_none store session now hfind
  · refine ⟨{ session with lastModified := now }, ?_, rfl, rfl, rfl, rfl, rfl,
      rfl, h1⟩
    have hmem := save_mem_updated store session now
    have hstore : (saveSession store session now).2 =
        StorageState.stored (saveSession store session now).1 := rfl
    rw [hstore]
    show _ ∈ (loadSessions (StorageState.stored
      (saveSession store session now).1) t2).1
    simp only [loadSessions, List.mem_insertionSort]
    apply List.mem_filter.mpr
    refine ⟨hmem, ?_⟩
    simp only [decide_eq_true_eq]
    omega

theorem save_round_trip_witness :
    (3 : Int) ≤ 5 ∧ (5 : Int) ≤ 6 ∧ (6 : Int) - 5 < RETENTION_MS ∧
    (((∃ i : Fin ((loadSessions (StorageState.stored []) 5).1.length),
        (((loadSessions (StorageState.stored []) 5).1).get i).id = sessA.id ∧
        (saveSession (StorageState.stored []) sessA 5).1 =
          ((loadSessions (StorageState.stored []) 5).1).set i
            { sessA with lastModified := 5 }) ∨
      ((∀ s ∈ (loadSessions (StorageState.stored []) 5).1, s.id ≠ sessA.id) ∧
        (saveSession (StorageState.stored []) sessA 5).1 =
          { sessA with lastModified := 5 } ::
            (loadSessions (StorageState.stored []) 5).1)) ∧
    (∃ s ∈ (loadSessions (saveSession (StorageState.stored []) sessA 5).2 6).1,
      s.id = sessA.id ∧ s.title = sessA.title ∧
      s.messages = sessA.messages ∧ s.modeId = sessA.modeId ∧
      s.projectId = sessA.projectId ∧ s.lastModified = 5 ∧
      (3 : Int) ≤ s.lastModified)) :=
  ⟨by decide, by decide, by decide,
    save_round_trip (StorageState.stored []) sessA 5 3 6 (by decide)
      (by decide) (by decide)⟩

/-- C5: on a missing blob and on a parse failure, `loadSessions`
returns the empty list (and, being a total function, never raises); in
both cases the stored blob is left untouched. -/
theorem load_error_handling (now : Int) :
    (loadSessions StorageState.absent now).1 = [] ∧
    (loadSessions StorageState.corrupt now).1 = [] ∧
    (loadSessions StorageState.absent now).2 = StorageState.absent ∧
    (loadSessions StorageState.corrupt now).2 = StorageState.corrupt :=
  ⟨rfl, rfl, rfl, rfl⟩

/-- C9: deleting an id never raises (the embedded operation is a total
function); when the id is absent from the loaded list the result is
exactly the loaded list (so its length is unchanged), every returned
session has a different id (a present entry is removed), sessions with
other ids are all kept, and the returned list is what gets
persisted. -/
theorem delete_safe (store : StorageState) (id : String) (now : Int) :
    (id ∉ ((loadSessions store now).1).map ChatSession.id →
      (deleteSession store id now).1 = (loadSessions store now).1) ∧
    (∀ s ∈ (deleteSession store id now).1, s.id ≠ id) ∧
    (∀ s ∈ (loadSessions store now).1, s.id ≠ id →
      s ∈ (deleteSession store id now).1) ∧
    (deleteSession store id now).2 =
      StorageState.stored (deleteSession store id now).1 := by
  refine ⟨?_, ?_, ?_, rfl⟩
  · intro hid
    apply List.filter_eq_self.mpr
    intro s hs
    simp only [bne_iff_ne, ne_eq]
    intro hsid
    exact hid (hsid ▸ List.mem_map_of_mem ChatSession.id hs)
  · intro s hs
    have := List.of_mem_filter hs
    simpa [bne_iff_ne] using this
  · intro s hs hne
    exact List.mem_filter.mpr ⟨hs, by simpa [bne_iff_ne] using hne⟩

theorem delete_safe_witness :
    (deleteSession (StorageState.stored [sessA]) "zzz" 200).1 =
      (loadSessions (StorageState.stored [sessA]) 200).1 :=
  (delete_safe (StorageState.stored [sessA]) "zzz" 200).1 (by decide)

/-- C10: the title of a newly created session equals the first message
text when it has at most 30 characters, and otherwise equals the first
30 characters followed by an ellipsis. -/
theorem new_session_title (text : String) (now : Int) (modeId : ModeType)
    (projectId : Option String) :
    (text.length ≤ 30 → (mkNewSession text now modeId projectId).title = text) ∧
    (30 < text.length →
      (mkNewSession text now modeId projectId).title =
        (text.take 30) ++ "...") := by
  constructor
  · intro h
    simp only [mkNewSession]
    rw [if_neg (by omega)]
  · intro h
    simp only [mkNewSession]
    rw [if_pos (by omega)]

theorem new_session_title_witness :
    ("Hi" : String).length ≤ 30 ∧
    (mkNewSession "Hi" 0 ModeType.GENERAL none).title = "Hi" ∧
    30 < ("abcdefghijklmnopqrstuvwxyz01234" : String).length ∧
    (mkNewSession "abcdefghijklmnopqrstuvwxyz01234" 7 ModeType.GENERAL
        none).title =
      (("abcdefghijklmnopqrstuvwxyz01234" : String).take 30) ++ "..." :=
  ⟨by decide, (new_session_title "Hi" 0 ModeType.GENERAL none).1 (by decide),
   by decide,
   (new_session_title "abcdefghijklmnopqrstuvwxyz01234" 7 ModeType.GENERAL
     none).2 (by decide)⟩

/-- C7: the assembled system instruction depends on the project only
through its name, description, shared context and the mode-context
entry keyed by the given mode's id, so entries keyed by other modes
never affect the output; and the shared-memory block is part of the
prompt for every mode whenever a project is attached. -/
theorem mode_context_isolation (mode : Mode) (p1 p2 : Project)
    (hn : p1.name = p2.name) (hd : p1.description = p2.description)
    (hs : p1.memory.sharedContext = p2.memory.sharedContext)
    (hm : p1.memory.modeContext mode.id = p2.memory.modeContext mode.id) :
    constructContextualSystemPrompt mode (some p1) =
      constructContextualSystemPrompt mode (some p2) ∧
    ContainsSeg "--- 🌐 SHARED MEMORY (Visible to all modes) ---"
      (constructContextualSystemPrompt mode (some p1)) := by
  constructor
  · simp only [constructContextualSystemPrompt, modeMemoryBlock, hn, hd, hs, hm]
  · simp only [constructContextualSystemPrompt]
    apply ContainsSeg.append_left
    apply ContainsSeg.append_right
    apply ContainsSeg.append_right
    apply ContainsSeg.append_right
    apply ContainsSeg.append_right
    apply ContainsSeg.append_right
    apply ContainsSeg.append_right
    apply ContainsSeg.append_right
    apply ContainsSeg.append_right
    apply ContainsSeg.append_left
    decide

theorem mode_context_isolation_witness :
    constructContextualSystemPrompt modeG (some projP1) =
      constructContextualSystemPrompt modeG (some projP2) ∧
    ContainsSeg "--- 🌐 SHARED MEMORY (Visible to all modes) ---"
      (constructContextualSystemPrompt modeG (some projP1)) :=
  mode_context_isolation modeG projP1 projP2 rfl rfl rfl rfl

/-- C6: with no API key the router returns the fixed diagnostic text
and its result does not depend on the backend at all (no backend call
can influence it); when a key is present and the backend throws, the
router returns normally with the text built from the provider name and
the error message, which it therefore contains; the embedded function
is total, so no exception propagates to the caller. -/
theorem router_error_handling (history : List Message) (mode : Mode)
    (project : Option Project) (newMessage : String)
    (attachments : List AttachmentIn) (imageSettings : Option ImageSettings)
    (b1 b2 backend : BackendReq → Except GenError BackendResp) (key : String)
    (e : GenError) (hk : key ≠ "") (hb : ∀ r, backend r = Except.error e) :
    (sendMessageToGemini none b1 history mode project newMessage attachments
        imageSettings =
      sendMessageToGemini none b2 history mode project newMessage attachments
        imageSettings) ∧
    (sendMessageToGemini none b1 history mode project newMessage attachments
        imageSettings).text =
      "Error: No API Key found. Please set REACT_APP_API_KEY or process.env.API_KEY." ∧
    (sendMessageToGemini (some key) backend history mode project newMessage
        attachments imageSettings).text =
      "System Error (" ++ APIProvider.toStr mode.provider ++ "): "
        ++ e.message ∧
    ContainsSeg (APIProvider.toStr mode.provider)
      ((sendMessageToGemini (some key) backend history mode project newMessage
        attachments imageSettings).text) ∧
    ContainsSeg e.message
      ((sendMessageToGemini (some key) backend history mode project newMessage
        attachments imageSettings).text) := by
  have herr : (sendMessageToGemini (some key) backend history mode project
      newMessage attachments imageSettings).text =
      "System Error (" ++ APIProvider.toStr mode.provider ++ "): "
        ++ e.message := by
    simp only [sendMessageToGemini]
    rw [if_neg hk]
    cases hprov : mode.provider with
    | FAL_AI => simp only [hb]
    | TAVILY => simp only [hb]
    | DEEPSEEK => simp only [hb]
    | GEMINI =>
      by_cases hatt : attachments.length > 0
      · simp only [if_pos hatt, hb]
      · simp only [if_neg hatt, hb]
  refine ⟨rfl, rfl, herr, ?_, ?_⟩
  · rw [herr]
    exact (((ContainsSeg.self (APIProvider.toStr mode.provider)).append_left
      "System Error (").append_right "): ").append_right e.message
  · rw [herr]
    exact (ContainsSeg.self e.message).append_left _

theorem router_error_handling_witness :
    ("k" : String) ≠ "" ∧
    (∀ r, backendBoom r = Except.error { message := "boom" }) ∧
    ((sendMessageToGemini none backendBoom [] modeG none "hi" [] none =
      sendMessageToGemini none backendBoom [] modeG none "hi" [] none) ∧
    (sendMessageToGemini none backendBoom [] modeG none "hi" [] none).text =
      "Error: No API Key found. Please set REACT_APP_API_KEY or process.env.API_KEY." ∧
    (sendMessageToGemini (some "k") backendBoom [] modeG none "hi" []
        none).text =
      "System Error (" ++ APIProvider.toStr modeG.provider ++ "): "
        ++ GenError.message { message := "boom" } ∧
    ContainsSeg (APIProvider.toStr modeG.provider)
      ((sendMessageToGemini (some "k") backendBoom [] modeG none "hi" []
        none).text) ∧
    ContainsSeg (GenError.message { message := "boom" })
      ((sendMessageToGemini (some "k") backendBoom [] modeG none "hi" []
        none).text)) :=
  ⟨by decide, fun r => rfl,
    router_error_handling [] modeG none "hi" [] none backendBoom backendBoom
      backendBoom "k" { message := "boom" } (by decide) (fun r => rfl)⟩

/-- Helper: unfolding equation of `sourcesLines` on a cons cell. -/
theorem sourcesLines_cons (i : Nat) (c0 : GroundingChunk)
    (rest : List GroundingChunk) :
    sourcesLines i (c0 :: rest) =
      (match c0.web with
       | some w =>
         match w.uri with
         | some u => if u = "" then "" else
             "   " ++ toString (i + 1) ++ ". " ++ u ++ "\n"
         | none => ""
       | none => "") ++ sourcesLines (i + 1) rest := rfl

/-- Helper: the numbered line of a chunk with a web uri occurs in the
sources lines; the number is the chunk's position among all chunks. -/
theorem sourcesLines_contains (chunks : List GroundingChunk) :
    ∀ (i k : Nat) (c : GroundingChunk) (w : WebSource) (u : String),
      chunks[k]? = some c → c.web = some w → w.uri = some u → u ≠ "" →
      ContainsSeg ("   " ++ toString (i + k + 1) ++ ". " ++ u ++ "\n")
        (sourcesLines i chunks) := by
  induction chunks with
  | nil =>
    intro i k c w u hk
    simp at hk
  | cons c0 rest ih =>
    intro i k c w u hk hw hu hne
    cases k with
    | zero =>
      have hc : c0 = c := by simpa using hk
      subst hc
      rw [sourcesLines_cons]
      simp only [hw, hu, if_neg hne]
      exact (ContainsSeg.self _).append_right _
    | succ k2 =>
      simp only [List.getElem?_cons_succ] at hk
      have hrec := ih (i + 1) k2 c w u hk hw hu hne
      have harith : i + 1 + k2 + 1 = i + (k2 + 1) + 1 := by omega
      rw [harith] at hrec
      rw [sourcesLines_cons]
      exact hrec.append_left _

/-- Helper: unfolding equation of `sourcesBlock` when grounding chunks
are present. -/
theorem sourcesBlock_eq (msg : Message) (gm : GroundingMetadata)
    (chunks : List GroundingChunk) (h1 : msg.groundingMetadata = some gm)
    (h2 : gm.groundingChunks = some chunks) :
    sourcesBlock msg = "\n[Sources Used]:\n" ++ sourcesLines 0 chunks := by
  simp only [sourcesBlock, h1, h2]

/-- Helper: a segment of a member string occurs in the join. -/
theorem containsSeg_strJoin {pat s : String} {l : List String}
    (hs : s ∈ l) (h : ContainsSeg pat s) : ContainsSeg pat (strJoin l) := by
  induction l with
  | nil => cases hs
  | cons x t ih =>
    rcases List.mem_cons.mp hs with heq | hmem
    · subst heq
      show ContainsSeg pat (s ++ strJoin t)
      exact h.append_right _
    · show ContainsSeg pat (x ++ strJoin t)
      exact (ih hmem).append_left x

/-- C8 (amended): the export text contains, for every message, the
`[time] ROLE:` line (role upper-cased) followed by the raw content;
the transcript is the header followed by the per-message blocks in
message order; and for every grounding chunk of a message that carries
a nonempty web uri, a numbered line with that uri occurs, the number
being the chunk's 1-based position among all of that message's chunks
(not its position among the uri-carrying ones). -/
theorem export_transcript (fmtDate fmtTime : Int → String)
    (session : ChatSession) (msg : Message)
    (hmsg : msg ∈ session.messages) :
    ContainsSeg ("[" ++ fmtTime msg.timestamp ++ "] "
        ++ strUpper (Role.toStr msg.role) ++ ":\n" ++ msg.content ++ "\n")
      (sessionTranscript fmtDate fmtTime session) ∧
    sessionTranscript fmtDate fmtTime session =
      transcriptHeader fmtDate session
        ++ strJoin (session.messages.map (msgBlock fmtTime)) ∧
    (∀ (gm : GroundingMetadata) (chunks : List GroundingChunk) (k : Nat)
        (c : GroundingChunk) (w : WebSource) (u : String),
      msg.groundingMetadata = some gm → gm.groundingChunks = some chunks →
      chunks[k]? = some c → c.web = some w → w.uri = some u → u ≠ "" →
      ContainsSeg ("   " ++ toString (k + 1) ++ ". " ++ u ++ "\n")
        (sessionTranscript fmtDate fmtTime session)) := by
  have hmem2 : msgBlock fmtTime msg ∈ session.messages.map (msgBlock fmtTime) :=
    List.mem_map_of_mem _ hmsg
  refine ⟨?_, rfl, ?_⟩
  · have hb : ContainsSeg ("[" ++ fmtTime msg.timestamp ++ "] "
        ++ strUpper (Role.toStr msg.role) ++ ":\n" ++ msg.content ++ "\n")
        (msgBlock fmtTime msg) := by
      unfold msgBlock
      exact (((ContainsSeg.self _).append_right _).append_right _).append_right _
    have hj := containsSeg_strJoin hmem2 hb
    unfold sessionTranscript
    exact hj.append_left _
  · intro gm chunks k c w u h1 h2 hk hw hu hne
    have hline := sourcesLines_contains chunks 0 k c w u hk hw hu hne
    have h0 : 0 + k + 1 = k + 1 := by omega
    rw [h0] at hline
    have hsb : ContainsSeg ("   " ++ toString (k + 1) ++ ". " ++ u ++ "\n")
        (sourcesBlock msg) := by
      rw [sourcesBlock_eq msg gm chunks h1 h2]
      exact hline.append_left _
    have hb : ContainsSeg ("   " ++ toString (k + 1) ++ ". " ++ u ++ "\n")
        (msgBlock fmtTime msg) := by
      unfold msgBlock
      exact (hsb.append_left _).append_right _
    have hj := containsSeg_strJoin hmem2 hb
    unfold sessionTranscript
    exact hj.append_left _

theorem export_transcript_witness :
    msgU ∈ sessX.messages ∧ msgM ∈ sessX.messages ∧
    ContainsSeg ("[" ++ cFmt msgU.timestamp ++ "] "
        ++ strUpper (Role.toStr msgU.role) ++ ":\n" ++ msgU.content ++ "\n")
      (sessionTranscript cFmt cFmt sessX) ∧
    ContainsSeg ("[" ++ cFmt msgM.timestamp ++ "] "
        ++ strUpper (Role.toStr msgM.role) ++ ":\n" ++ msgM.content ++ "\n")
      (sessionTranscript cFmt cFmt sessX) ∧
    ContainsSeg ("   " ++ toString (0 + 1) ++ ". " ++ "http://x.com" ++ "\n")
      (sessionTranscript cFmt cFmt sessX) :=
  ⟨by decide, by decide,
   (export_transcript cFmt cFmt sessX msgU (by decide)).1,
   (export_transcript cFmt cFmt sessX msgM (by decide)).1,
   (export_transcript cFmt cFmt sessX msgM (by decide)).2.2
     { groundingChunks := some [chunkX] } [chunkX] 0 chunkX
     { uri := some "http://x.com" } "http://x.com" rfl rfl rfl rfl rfl
     (by decide)⟩

/-- C8 counterexample: in a session whose one model message has a
first grounding chunk with no web uri and a second one carrying
`http://y.com`, the sources numbering does not start from 1: no line
numbered 1 appears anywhere in the transcript, whereas the uri is
listed with number 2. -/
theorem export_numbering_counterexample :
    ¬ ContainsSeg "1. http://y.com" (sessionTranscript cFmt cFmt sessY) ∧
    ContainsSeg "   2. http://y.com\n" (sessionTranscript cFmt cFmt sessY) ∧
    msgY.groundingMetadata =
      some { groundingChunks := some [chunkNone, chunkY] } :=
  ⟨by decide, by decide, rfl⟩

end Engm
